import Mathlib

/-!
Shallow embedding of the bulk Payhawk invitation pipeline (src/app.py).

The embedded core is:
  * `normalizeRow`   — the per-row field extraction at app.py lines 165-168;
  * `mkPayload` and `post_invite` — the API client at app.py lines 33-54,
    with the network modelled as an oracle giving, for each attempt index,
    either a raised request exception (`Except.error msg`) or an HTTP
    response (`Except.ok`);
  * `classify`       — the status classification chain at app.py lines 183-192;
  * `stepResult` / `runFrom` — the batch loop at app.py lines 164-211.

Sleeps (backoff and pacing) are recorded as durations; Python's
`time.sleep` calls become entries of `sleeps` (seconds, inside the client)
and the `pacing` field (milliseconds, between rows).  Cell values are
modelled as strings, as the spec's "tabular dataset (rows of named
fields)" supplies them.
-/

/-- Character-level whitespace test matching Python `str.strip`'s default
ASCII whitespace set. -/
def isWS (c : Char) : Bool :=
  c = ' ' ∨ c = '\t' ∨ c = '\n' ∨ c = '\r' ∨ c = '\x0b' ∨ c = '\x0c'

/-- Drop leading whitespace characters. -/
def dropWS : List Char → List Char
  | [] => []
  | c :: cs => if isWS c then dropWS cs else c :: cs

/-- Embedding of Python `str.strip()`: remove leading and trailing
whitespace. -/
def trimStr (s : String) : String :=
  String.mk (dropWS ((dropWS s.toList.reverse).reverse))

/-- Embedding of Python slicing `s[:n]` (first `n` code points). -/
def takeStr (n : Nat) (s : String) : String :=
  String.mk (s.toList.take n)

/-- Embedding of Python `str.lower()` (ASCII case folding suffices for the
needle "already"). -/
def lowerStr (s : String) : String :=
  String.mk (s.toList.map Char.toLower)

/-- Character-list prefix test. -/
def chPref : List Char → List Char → Bool
  | [], _ => true
  | _ :: _, [] => false
  | a :: as, b :: bs => a = b && chPref as bs

/-- Character-list substring test. -/
def chSub (needle : List Char) : List Char → Bool
  | [] => needle.isEmpty
  | b :: bs => chPref needle (b :: bs) || chSub needle bs

/-- Embedding of Python `"already" in text.lower()` (app.py line 185). -/
def hasAlready (text : String) : Bool :=
  chSub "already".toList (lowerStr text).toList

/-- An HTTP response as the batch sees it: status code and body text. -/
structure HResp where
  code : Nat
  text : String
deriving DecidableEq

/-- The remote endpoint, modelled as an oracle: for each attempt index it
either raises a request exception (`Except.error` with the exception
message) or returns a response. -/
def Oracle : Type := Nat → Except String HResp

/-- A raw dataset row: named cells, as strings. -/
def Row : Type := List (String × String)

/-- Embedding of `row.get(col, "")` (app.py lines 165-168) over the string
cell model. -/
def rowGet (row : Row) (col : String) : String :=
  match row.find? (fun p => p.1 = col) with
  | some p => p.2
  | none => ""

/-- The column mapping chosen in the UI: the email column is required, the
others are either a column name, possibly the literal "(none)" choice, or
absent. -/
structure Mapping where
  emailCol : String
  firstCol : Option String
  lastCol : Option String
  roleCol : Option String

/-- The normalized per-row record (spec's InviteRecord). -/
structure InviteRecord where
  email : String
  first : String
  last : String
  role : String
deriving DecidableEq

/-- Embedding of the shared shape of app.py lines 166-168:
`str(row.get(col, "")).strip() if col and col != "(none)" else dflt`. -/
def readOpt (row : Row) (col : Option String) (dflt : String) : String :=
  match col with
  | some c => if c ≠ "" ∧ c ≠ "(none)" then trimStr (rowGet row c) else dflt
  | none => dflt

/-- Embedding of the row normalization at app.py lines 165-168.  The email
line's extra `or ""` is the identity on string cells. -/
def normalizeRow (m : Mapping) (row : Row) : InviteRecord :=
  { email := trimStr (rowGet row m.emailCol)
  , first := readOpt row m.firstCol ""
  , last := readOpt row m.lastCol ""
  , role := readOpt row m.roleCol "employee" }

/-- The semantic status tags of the spec's classification table (section
4.3).  `AUTH_ERROR` is the fatal 401 branch of app.py lines 187-190 (whose
recorded status string is "INVITE_ERROR 401"). -/
inductive Tag where
  | INVITED
  | ALREADY_EXISTS
  | AUTH_ERROR
  | INVITE_ERROR (code : Nat)
deriving DecidableEq

/-- Embedding of the classification chain at app.py lines 183-192:
200/201, then 400/409 with "already" in the lowered body, then 401
(the fatal branch), then the generic error tag. -/
def classify (code : Nat) (text : String) : Tag :=
  if code = 200 ∨ code = 201 then Tag.INVITED
  else if (code = 400 ∨ code = 409) ∧ hasAlready text = true then Tag.ALREADY_EXISTS
  else if code = 401 then Tag.AUTH_ERROR
  else Tag.INVITE_ERROR code

/-- The spec's classification table (section 4.3), written from its rows
top to bottom: statusCode in {200, 201} gives INVITED; statusCode in
{400, 409} with bodyText case-insensitively containing "already" gives
ALREADY_EXISTS; statusCode 401 gives AUTH_ERROR; any other statusCode
gives INVITE_ERROR with that code. -/
def specStatusTag (statusCode : Nat) (bodyText : String) : Tag :=
  if statusCode = 200 ∨ statusCode = 201 then Tag.INVITED
  else if (statusCode = 400 ∨ statusCode = 409) ∧ hasAlready bodyText = true then
    Tag.ALREADY_EXISTS
  else if statusCode = 401 then Tag.AUTH_ERROR
  else Tag.INVITE_ERROR statusCode

/-- The JSON payload built by `post_invite` (app.py lines 40-44):
firstName/lastName are present only when the value is truthy, and a falsy
role is replaced by "employee". -/
structure ApiPayload where
  email : String
  role : String
  firstName : Option String
  lastName : Option String
deriving DecidableEq

/-- Embedding of the payload construction at app.py lines 40-44.  `first`
and `last` model the Python parameters that may be `None`; `if first:` is
Python truthiness (not None, not empty). -/
def mkPayload (email : String) (first last : Option String) (role : String) : ApiPayload :=
  { email := email
  , role := if role = "" then "employee" else role
  , firstName :=
      match first with
      | some s => if s = "" then none else some s
      | none => none
  , lastName :=
      match last with
      | some s => if s = "" then none else some s
      | none => none }

/-- The retry loop of `post_invite` (app.py lines 46-54).  `retry` is the
loop's retry counter; `budget` is the remaining retry allowance
`max_retries - retry`, so `retry < max_retries` is exactly `budget ≠ 0`.
Each call of the oracle is one issued POST.  Returns (result, number of
POSTs issued, backoff sleeps in seconds, in order). -/
def postInviteGo (net : Oracle) (retry : Nat) : Nat → Except String HResp × Nat × List Nat
  | 0 =>
    match net retry with
    | .error e => (.error e, 1, [])
    | .ok r => (.ok r, 1, [])
  | b + 1 =>
    match net retry with
    | .error e => (.error e, 1, [])
    | .ok r =>
      if r.code = 429 then
        let rest := postInviteGo net (retry + 1) b
        (rest.1, rest.2.1 + 1, min (2 ^ (retry + 1)) 10 :: rest.2.2)
      else (.ok r, 1, [])

/-- Result of one `post_invite` call: the returned `(response, payload)`
pair (or the propagated request exception), with the instrumented POST
count and backoff sleeps. -/
structure PIRes where
  result : Except String (HResp × ApiPayload)
  attempts : Nat
  sleeps : List Nat

/-- Embedding of `post_invite` (app.py lines 33-54).  In the source the
defaults are role="employee" and max_retries=5; callers here pass them
explicitly. -/
def post_invite (net : Oracle) (email : String) (first last : Option String)
    (role : String) (maxRetries : Nat) : PIRes :=
  let payload := mkPayload email first last role
  let g := postInviteGo net 0 maxRetries
  { result := Except.map (fun resp => (resp, payload)) g.1
  , attempts := g.2.1
  , sleeps := g.2.2 }

/-- C1: after a real invite call, every (statusCode, bodyText) pair is
classified exactly as the spec's table says: 200/201 give INVITED,
400/409 with a case-insensitive "already" in the body give ALREADY_EXISTS,
401 gives the fatal AUTH_ERROR branch, and anything else (including 409
without "already") gives INVITE_ERROR with the status code.  The theorem
states that the code's classification chain agrees with the spec table on
every input, and evaluates the spec's five sample rows. -/
theorem c1_classification :
    (∀ code text, classify code text = specStatusTag code text) ∧
    classify 201 "" = Tag.INVITED ∧
    classify 409 "User already exists" = Tag.ALREADY_EXISTS ∧
    classify 409 "Some other message" = Tag.INVITE_ERROR 409 ∧
    (∀ text, classify 401 text = Tag.AUTH_ERROR) ∧
    classify 500 "" = Tag.INVITE_ERROR 500 ∧
    classify 200 "ok" = Tag.INVITED ∧
    classify 400 "User ALREADY exists" = Tag.ALREADY_EXISTS := by
  refine ⟨fun _ _ => rfl, by decide, by decide, by decide, ?_, by decide, by decide, by decide⟩
  intro t
  unfold classify
  rw [if_neg (by decide), if_neg ?hno, if_pos rfl]
  rintro ⟨h, -⟩
  revert h
  decide

/-- One per-row result dictionary appended to `results` (app.py lines
171, 176, 189, 193-202, 205).  Keys that a branch does not set are `none`.
`response?` is the "response" key of the fatal 401 record, `snippet?` the
"response_snippet" key, `error?` the "error" key, `payload?` the dry-run
"payload" key. -/
structure Outcome where
  row : Nat
  email : String
  status : String
  first? : Option String := none
  last? : Option String := none
  role? : Option String := none
  payload? : Option InviteRecord := none
  response? : Option String := none
  snippet? : Option String := none
  error? : Option String := none
deriving DecidableEq

/-- Which branch of the loop body produced a row's result. -/
inductive RKind where
  | skip
  | dry
  | net
  | real
  | auth
deriving DecidableEq

/-- A processed row: the appended outcome plus instrumentation — POST
count, backoff sleeps (seconds) inside the client, and the pacing delay
(milliseconds) performed after the row (app.py lines 207-209). -/
structure RowResult where
  out : Outcome
  kind : RKind
  calls : Nat
  sleeps : List Nat
  pacing : Nat
deriving DecidableEq

/-- The run options chosen in the UI (app.py lines 140-141). -/
structure RunOpts where
  dryRun : Bool
  throttleMs : Nat

/-- Render a non-fatal tag as the status string the loop stores
("INVITED", "ALREADY_EXISTS", f"INVITE_ERROR {code}"); the fatal branch
stores "INVITE_ERROR 401" (app.py line 189). -/
def tagStr : Tag → String
  | Tag.INVITED => "INVITED"
  | Tag.ALREADY_EXISTS => "ALREADY_EXISTS"
  | Tag.AUTH_ERROR => "INVITE_ERROR 401"
  | Tag.INVITE_ERROR c => "INVITE_ERROR " ++ toString c

/-- The real API call of app.py line 182: `post_invite(api_key,
account_id, email, first or None, last or None, role or "employee")`,
with the default max_retries 5, against this row's network oracle. -/
def rowCall (m : Mapping) (x : Row × Oracle) : PIRes :=
  let r := normalizeRow m x.1
  post_invite x.2 r.email (if r.first = "" then none else some r.first)
      (if r.last = "" then none else some r.last)
      (if r.role = "" then "employee" else r.role) 5

/-- One iteration of the batch loop body (app.py lines 164-209) for the
row at 0-based position `idx`, with `x.2` the network oracle for this
row's `post_invite` call: skip on empty normalized email, dry-run record,
otherwise the real call with `first or None`, `last or None`,
`role or "employee"` and max_retries 5, then the classification chain.
The Python `if throttle_ms: time.sleep(throttle_ms / 1000)` is recorded
as a pacing duration in milliseconds. -/
def stepResult (o : RunOpts) (m : Mapping) (idx : Nat) (x : Row × Oracle) : RowResult :=
  let r := normalizeRow m x.1
  if r.email = "" then
    { out := { row := idx + 2, email := "", status := "SKIPPED: missing email" }
    , kind := RKind.skip, calls := 0, sleeps := [], pacing := 0 }
  else if o.dryRun then
    { out := { row := idx + 2, email := r.email, status := "DRY_RUN: would INVITE"
             , payload? := some { email := r.email, first := r.first
                                , last := r.last, role := r.role } }
    , kind := RKind.dry, calls := 0, sleeps := [], pacing := 0 }
  else
    let pr := rowCall m x
    match pr.result with
    | .error e =>
      { out := { row := idx + 2, email := r.email, status := "NETWORK_ERROR"
               , error? := some e }
      , kind := RKind.net, calls := pr.attempts, sleeps := pr.sleeps
      , pacing := if o.throttleMs ≠ 0 then o.throttleMs else 0 }
    | .ok (resp, _) =>
      if classify resp.code resp.text = Tag.AUTH_ERROR then
        { out := { row := idx + 2, email := r.email, status := "INVITE_ERROR 401"
                 , response? := some (takeStr 300 resp.text) }
        , kind := RKind.auth, calls := pr.attempts, sleeps := pr.sleeps, pacing := 0 }
      else
        { out := { row := idx + 2, email := r.email, first? := some r.first
                 , last? := some r.last, role? := some r.role
                 , status := tagStr (classify resp.code resp.text)
                 , snippet? := some (takeStr 300 resp.text) }
        , kind := RKind.real, calls := pr.attempts, sleeps := pr.sleeps
        , pacing := if o.throttleMs ≠ 0 then o.throttleMs else 0 }

/-- The loop's `break` condition (app.py line 190): the row was really
called (not skipped, not dry-run), the call returned a response (no
exception) and the classification chain reached the fatal 401 branch. -/
def rowBreaks (o : RunOpts) (m : Mapping) (x : Row × Oracle) : Bool :=
  let r := normalizeRow m x.1
  if r.email = "" then false
  else if o.dryRun then false
  else
    let pr := rowCall m x
    match pr.result with
    | .error _ => false
    | .ok (resp, _) => decide (classify resp.code resp.text = Tag.AUTH_ERROR)

/-- The batch loop (app.py lines 164-211): process rows in order from
0-based position `idx`, stopping right after a row whose fatal 401 branch
executes `break`.  The grown `results` list is the return value handed to
the collaborator (rendered and exported after the loop). -/
def runFrom (o : RunOpts) (m : Mapping) : Nat → List (Row × Oracle) → List RowResult
  | _, [] => []
  | idx, x :: rest =>
    if rowBreaks o m x then [stepResult o m idx x]
    else stepResult o m idx x :: runFrom o m (idx + 1) rest

/-- Total number of POSTs issued during a run. -/
def totalCalls (l : List RowResult) : Nat :=
  (l.map (fun r => r.calls)).sum

lemma throttle_if (o : RunOpts) : (if o.throttleMs ≠ 0 then o.throttleMs else 0) = o.throttleMs := by
  by_cases h : o.throttleMs = 0 <;> simp [h]

lemma runFrom_nil (o : RunOpts) (m : Mapping) (idx : Nat) : runFrom o m idx [] = [] := rfl

lemma runFrom_cons (o : RunOpts) (m : Mapping) (idx : Nat) (x : Row × Oracle)
    (l : List (Row × Oracle)) :
    runFrom o m idx (x :: l) =
      if rowBreaks o m x then [stepResult o m idx x]
      else stepResult o m idx x :: runFrom o m (idx + 1) l := rfl

lemma stepResult_skip (o : RunOpts) (m : Mapping) (idx : Nat) (x : Row × Oracle)
    (h : (normalizeRow m x.1).email = "") :
    stepResult o m idx x =
      { out := { row := idx + 2, email := "", status := "SKIPPED: missing email" }
      , kind := RKind.skip, calls := 0, sleeps := [], pacing := 0 } := by
  simp [stepResult, h]

lemma rowBreaks_skip (o : RunOpts) (m : Mapping) (x : Row × Oracle)
    (h : (normalizeRow m x.1).email = "") : rowBreaks o m x = false := by
  simp [rowBreaks, h]

lemma stepResult_dry (o : RunOpts) (m : Mapping) (idx : Nat) (x : Row × Oracle)
    (h1 : ¬ (normalizeRow m x.1).email = "") (h2 : o.dryRun = true) :
    stepResult o m idx x =
      { out := { row := idx + 2, email := (normalizeRow m x.1).email
               , status := "DRY_RUN: would INVITE"
               , payload? := some (normalizeRow m x.1) }
      , kind := RKind.dry, calls := 0, sleeps := [], pacing := 0 } := by
  simp [stepResult, h1, h2]

lemma rowBreaks_dry (o : RunOpts) (m : Mapping) (x : Row × Oracle)
    (h2 : o.dryRun = true) : rowBreaks o m x = false := by
  by_cases h1 : (normalizeRow m x.1).email = "" <;> simp [rowBreaks, h1, h2]

lemma stepResult_err (o : RunOpts) (m : Mapping) (idx : Nat) (x : Row × Oracle) (e : String)
    (h1 : ¬ (normalizeRow m x.1).email = "") (h2 : o.dryRun = false)
    (he : (rowCall m x).result = Except.error e) :
    stepResult o m idx x =
      { out := { row := idx + 2, email := (normalizeRow m x.1).email
               , status := "NETWORK_ERROR", error? := some e }
      , kind := RKind.net, calls := (rowCall m x).attempts
      , sleeps := (rowCall m x).sleeps, pacing := o.throttleMs } := by
  simp [stepResult, h1, h2, he, throttle_if]
  omega

lemma rowBreaks_err (o : RunOpts) (m : Mapping) (x : Row × Oracle) (e : String)
    (h1 : ¬ (normalizeRow m x.1).email = "") (h2 : o.dryRun = false)
    (he : (rowCall m x).result = Except.error e) : rowBreaks o m x = false := by
  simp [rowBreaks, h1, h2, he]

lemma stepResult_ok_auth (o : RunOpts) (m : Mapping) (idx : Nat) (x : Row × Oracle)
    (resp : HResp) (pl : ApiPayload)
    (h1 : ¬ (normalizeRow m x.1).email = "") (h2 : o.dryRun = false)
    (hok : (rowCall m x).result = Except.ok (resp, pl))
    (ht : classify resp.code resp.text = Tag.AUTH_ERROR) :
    stepResult o m idx x =
      { out := { row := idx + 2, email := (normalizeRow m x.1).email
               , status := "INVITE_ERROR 401", response? := some (takeStr 300 resp.text) }
      , kind := RKind.auth, calls := (rowCall m x).attempts
      , sleeps := (rowCall m x).sleeps, pacing := 0 } := by
  simp [stepResult, h1, h2, hok, ht]

lemma stepResult_ok_real (o : RunOpts) (m : Mapping) (idx : Nat) (x : Row × Oracle)
    (resp : HResp) (pl : ApiPayload)
    (h1 : ¬ (normalizeRow m x.1).email = "") (h2 : o.dryRun = false)
    (hok : (rowCall m x).result = Except.ok (resp, pl))
    (ht : ¬ classify resp.code resp.text = Tag.AUTH_ERROR) :
    stepResult o m idx x =
      { out := { row := idx + 2, email := (normalizeRow m x.1).email
               , first? := some (normalizeRow m x.1).first
               , last? := some (normalizeRow m x.1).last
               , role? := some (normalizeRow m x.1).role
               , status := tagStr (classify resp.code resp.text)
               , snippet? := some (takeStr 300 resp.text) }
      , kind := RKind.real, calls := (rowCall m x).attempts
      , sleeps := (rowCall m x).sleeps, pacing := o.throttleMs } := by
  simp [stepResult, h1, h2, hok, ht, throttle_if]
  omega

lemma rowBreaks_ok (o : RunOpts) (m : Mapping) (x : Row × Oracle)
    (resp : HResp) (pl : ApiPayload)
    (h1 : ¬ (normalizeRow m x.1).email = "") (h2 : o.dryRun = false)
    (hok : (rowCall m x).result = Except.ok (resp, pl)) :
    rowBreaks o m x = decide (classify resp.code resp.text = Tag.AUTH_ERROR) := by
  simp [rowBreaks, h1, h2, hok]

lemma rowBreaks_iff_auth (o : RunOpts) (m : Mapping) (idx : Nat) (x : Row × Oracle) :
    rowBreaks o m x = true ↔ (stepResult o m idx x).kind = RKind.auth := by
  by_cases h1 : (normalizeRow m x.1).email = ""
  · simp [rowBreaks_skip o m x h1, stepResult_skip o m idx x h1]
  · cases h2 : o.dryRun with
    | true => simp [rowBreaks_dry o m x h2, stepResult_dry o m idx x h1 h2]
    | false =>
      cases hres : (rowCall m x).result with
      | error e =>
        simp [rowBreaks_err o m x e h1 h2 hres, stepResult_err o m idx x e h1 h2 hres]
      | ok p =>
        obtain ⟨resp, pl⟩ := p
        by_cases ht : classify resp.code resp.text = Tag.AUTH_ERROR
        · simp [rowBreaks_ok o m x resp pl h1 h2 hres,
            stepResult_ok_auth o m idx x resp pl h1 h2 hres ht, ht]
        · simp [rowBreaks_ok o m x resp pl h1 h2 hres,
            stepResult_ok_real o m idx x resp pl h1 h2 hres ht, ht]

lemma stepResult_pacing (o : RunOpts) (m : Mapping) (idx : Nat) (x : Row × Oracle) :
    (((stepResult o m idx x).kind = RKind.skip ∨ (stepResult o m idx x).kind = RKind.dry) →
      (stepResult o m idx x).pacing = 0) ∧
    (((stepResult o m idx x).kind = RKind.real ∨ (stepResult o m idx x).kind = RKind.net) →
      (stepResult o m idx x).pacing = o.throttleMs) := by
  by_cases h1 : (normalizeRow m x.1).email = ""
  · simp [stepResult_skip o m idx x h1]
  · cases h2 : o.dryRun with
    | true => simp [stepResult_dry o m idx x h1 h2]
    | false =>
      cases hres : (rowCall m x).result with
      | error e => simp [stepResult_err o m idx x e h1 h2 hres]
      | ok p =>
        obtain ⟨resp, pl⟩ := p
        by_cases ht : classify resp.code resp.text = Tag.AUTH_ERROR
        · simp [stepResult_ok_auth o m idx x resp pl h1 h2 hres ht]
        · simp [stepResult_ok_real o m idx x resp pl h1 h2 hres ht]

/-- A mapping to a lone email column, as the UI builds when the optional
columns are left at "(none)". -/
def m1 : Mapping := ⟨"email", none, none, none⟩

/-- A mapping with the role column selected. -/
def m0 : Mapping := ⟨"email", none, none, some "role"⟩

/-- Real-run options: dry-run off, 100 ms throttle (the UI default). -/
def realOpts : RunOpts := ⟨false, 100⟩

/-- Dry-run options. -/
def dryOpts : RunOpts := ⟨true, 100⟩

/-- A row with a valid email. -/
def rowA : Row := [("email", "a@b.c")]

/-- A row whose email cell is whitespace only. -/
def rowB : Row := [("email", "   ")]

/-- A row with a valid email and an empty role cell. -/
def row0 : Row := [("email", "a@b.c"), ("role", "")]

/-- An endpoint that always answers 201. -/
def netOK : Oracle := fun _ => Except.ok ⟨201, "created"⟩

/-- An endpoint that always answers 401. -/
def net401 : Oracle := fun _ => Except.ok ⟨401, "unauthorized"⟩

/-- An endpoint whose request always raises a connection error. -/
def netBoom : Oracle := fun _ => Except.error "connection refused"

/-- An endpoint answering 429 on the first five attempts, then 201. -/
def netSeq : Oracle := fun n =>
  if n < 5 then Except.ok ⟨429, "slow down"⟩ else Except.ok ⟨201, "ok"⟩

/-- C5: a row whose mapped email value is empty or whitespace-only after
coercion to string and trimming gets exactly the outcome
"SKIPPED: missing email" (app.py line 171), no POST is issued for it
(calls = 0), and the run continues with the remaining rows. -/
theorem c5_skip_missing_email (o : RunOpts) (m : Mapping) (idx : Nat) (row : Row)
    (net : Oracle) (rest : List (Row × Oracle))
    (h : (normalizeRow m row).email = "") :
    runFrom o m idx ((row, net) :: rest) =
      { out := { row := idx + 2, email := "", status := "SKIPPED: missing email" }
      , kind := RKind.skip, calls := 0, sleeps := [], pacing := 0 }
        :: runFrom o m (idx + 1) rest := by
  rw [runFrom_cons, rowBreaks_skip o m (row, net) h, stepResult_skip o m idx (row, net) h]
  simp

/-- Witness for C5 at a concrete whitespace-only email row. -/
theorem c5_witness :
    (normalizeRow m1 rowB).email = "" ∧
    runFrom realOpts m1 0 [(rowB, netOK)] =
      [{ out := { row := 2, email := "", status := "SKIPPED: missing email" }
       , kind := RKind.skip, calls := 0, sleeps := [], pacing := 0 }] :=
  ⟨by decide, by simpa using c5_skip_missing_email realOpts m1 0 rowB netOK [] (by decide)⟩

/-- C6: when the real invite call raises a network-level failure
(`requests.RequestException`, app.py lines 204-205), the loop appends a
NETWORK_ERROR outcome carrying the exception message as its error detail
and continues with the remaining rows; the failure never escapes the
loop. -/
theorem c6_network_error (o : RunOpts) (m : Mapping) (idx : Nat) (row : Row)
    (net : Oracle) (rest : List (Row × Oracle)) (e : String)
    (hemail : ¬ (normalizeRow m row).email = "")
    (hdry : o.dryRun = false)
    (herr : (rowCall m (row, net)).result = Except.error e) :
    runFrom o m idx ((row, net) :: rest) =
      { out := { row := idx + 2, email := (normalizeRow m row).email
               , status := "NETWORK_ERROR", error? := some e }
      , kind := RKind.net, calls := (rowCall m (row, net)).attempts
      , sleeps := (rowCall m (row, net)).sleeps, pacing := o.throttleMs }
        :: runFrom o m (idx + 1) rest := by
  rw [runFrom_cons, rowBreaks_err o m (row, net) e hemail hdry herr,
    stepResult_err o m idx (row, net) e hemail hdry herr]
  simp

/-- Witness for C6 at a row whose request raises "connection refused";
the next row is still processed. -/
theorem c6_witness :
    ¬ (normalizeRow m1 rowA).email = "" ∧
    realOpts.dryRun = false ∧
    (rowCall m1 (rowA, netBoom)).result = Except.error "connection refused" ∧
    runFrom realOpts m1 0 [(rowA, netBoom), (rowB, netOK)] =
      { out := { row := 2, email := "a@b.c", status := "NETWORK_ERROR"
               , error? := some "connection refused" }
      , kind := RKind.net, calls := 1, sleeps := [], pacing := 100 }
        :: runFrom realOpts m1 1 [(rowB, netOK)] :=
  ⟨by decide, rfl, rfl, by
    simpa using c6_network_error realOpts m1 0 rowA netBoom [(rowB, netOK)]
      "connection refused" (by decide) rfl rfl⟩

/-- C2: if every row before `x` leaves the loop running and `x`'s real
call reaches the fatal 401 branch, the run processes exactly the rows up
to and including `x` — the result list is the results of the prefix plus
the single outcome for `x`, whatever rows follow — and this partial list
is the loop's return value (the runner is a total function into a list;
nothing is thrown).  With a 5-row dataset breaking at row 3 this gives
exactly 3 entries. -/
theorem c2_auth_early_exit (o : RunOpts) (m : Mapping) (idx : Nat)
    (pre post : List (Row × Oracle)) (x : Row × Oracle)
    (hpre : ∀ y ∈ pre, rowBreaks o m y = false)
    (hx : rowBreaks o m x = true) :
    runFrom o m idx (pre ++ x :: post) =
      runFrom o m idx pre ++ [stepResult o m (idx + pre.length) x] ∧
    (runFrom o m idx (pre ++ x :: post)).length = pre.length + 1 := by
  induction pre generalizing idx with
  | nil =>
    refine ⟨?_, ?_⟩ <;> simp [runFrom_cons, runFrom_nil, hx]
  | cons y pre ih =>
    have hy : rowBreaks o m y = false := hpre y (by simp)
    have hpre2 : ∀ z ∈ pre, rowBreaks o m z = false := fun z hz => hpre z (by simp [hz])
    obtain ⟨ih1, ih2⟩ := ih (idx + 1) hpre2
    have harith : idx + 1 + pre.length = idx + (pre.length + 1) := by omega
    constructor
    · calc runFrom o m idx ((y :: pre) ++ x :: post)
          = stepResult o m idx y :: runFrom o m (idx + 1) (pre ++ x :: post) := by
            simp [runFrom_cons, hy]
      _ = stepResult o m idx y ::
            (runFrom o m (idx + 1) pre ++ [stepResult o m (idx + 1 + pre.length) x]) := by
            rw [ih1]
      _ = runFrom o m idx (y :: pre) ++ [stepResult o m (idx + (y :: pre).length) x] := by
            simp [runFrom_cons, hy, harith]
    · have : runFrom o m idx ((y :: pre) ++ x :: post) =
          stepResult o m idx y :: runFrom o m (idx + 1) (pre ++ x :: post) := by
        simp [runFrom_cons, hy]
      rw [this]
      simp [ih2]

/-- First two rows of the C2 witness scenario: answered 201. -/
def preW : List (Row × Oracle) := [(rowA, netOK), (rowA, netOK)]

/-- Third row of the C2 witness scenario: answered 401. -/
def xW : Row × Oracle := (rowA, net401)

/-- Rows 4 and 5 of the C2 witness scenario: never reached. -/
def postW : List (Row × Oracle) := [(rowA, netOK), (rowA, netOK)]

/-- Witness for C2: a 5-row dataset whose third row is answered 401
yields exactly 3 outcomes. -/
theorem c2_witness :
    (∀ y ∈ preW, rowBreaks realOpts m1 y = false) ∧
    rowBreaks realOpts m1 xW = true ∧
    (runFrom realOpts m1 0 (preW ++ xW :: postW)).length = preW.length + 1 :=
  ⟨by decide, by decide,
    (c2_auth_early_exit realOpts m1 0 preW postW xW (by decide) (by decide)).2⟩

lemma totalCalls_nil : totalCalls [] = 0 := rfl

lemma totalCalls_cons (a : RowResult) (l : List RowResult) :
    totalCalls (a :: l) = a.calls + totalCalls l := by
  simp [totalCalls]

lemma stepResult_dry_calls (o : RunOpts) (m : Mapping) (idx : Nat) (x : Row × Oracle)
    (hdry : o.dryRun = true) : (stepResult o m idx x).calls = 0 := by
  by_cases h1 : (normalizeRow m x.1).email = ""
  · simp [stepResult_skip o m idx x h1]
  · simp [stepResult_dry o m idx x h1 hdry]

/-- The spec's Normalizer role rule as worded in section 4.1 ("Role: same
rule as first/last, but empty/absent value defaults to the literal
employee"): absent mapping, the "(none)" sentinel, or an empty trimmed
value all give "employee".  Kept for comparison against the code's
`normalizeRow`. -/
def specRoleRule (m : Mapping) (row : Row) : String :=
  match m.roleCol with
  | none => "employee"
  | some c =>
    if c = "" ∨ c = "(none)" then "employee"
    else if trimStr (rowGet row c) = "" then "employee"
    else trimStr (rowGet row c)

/-- Counterexample for C4 as stated: on a dry-run row whose role column is
mapped but whose cell is empty, the recorded payload's role is the empty
string, not the "employee" that the spec's Normalizer-contract defaulting
("role defaulted per the Normalizer contract") gives. -/
theorem c4_counterexample :
    (runFrom dryOpts m0 0 [(row0, netOK)]).map (fun r => r.out.payload?) =
      [some { email := "a@b.c", first := "", last := "", role := "" }] ∧
    specRoleRule m0 row0 = "employee" ∧
    ¬ ("" : String) = "employee" := by
  refine ⟨by decide, by decide, by decide⟩

/-- C4 (amended): in a dry run, every row produces exactly one outcome,
zero POSTs are issued during the entire run, and every row with a
non-empty trimmed email gets exactly one DRY_RUN outcome whose payload
equals the normalized record's fields as the code computes them (role
defaulted to "employee" only when the role mapping is absent or the
"(none)" sentinel; a mapped-but-empty role cell stays the empty
string). -/
theorem c4_dry_run (o : RunOpts) (m : Mapping) (idx : Nat) (l : List (Row × Oracle))
    (hdry : o.dryRun = true) :
    (runFrom o m idx l).length = l.length ∧
    totalCalls (runFrom o m idx l) = 0 ∧
    ∀ (i : Nat) (x : Row × Oracle), l[i]? = some x → ¬ (normalizeRow m x.1).email = "" →
      (runFrom o m idx l)[i]? = some
        { out := { row := idx + i + 2, email := (normalizeRow m x.1).email
                 , status := "DRY_RUN: would INVITE"
                 , payload? := some (normalizeRow m x.1) }
        , kind := RKind.dry, calls := 0, sleeps := [], pacing := 0 } := by
  induction l generalizing idx with
  | nil => simp [runFrom_nil, totalCalls_nil]
  | cons y l ih =>
    have hb : rowBreaks o m y = false := rowBreaks_dry o m y hdry
    have hrun : runFrom o m idx (y :: l) =
        stepResult o m idx y :: runFrom o m (idx + 1) l := by
      simp [runFrom_cons, hb]
    obtain ⟨ih1, ih2, ih3⟩ := ih (idx + 1)
    refine ⟨?_, ?_, ?_⟩
    · simp [hrun, ih1]
    · simp [hrun, totalCalls_cons, stepResult_dry_calls o m idx y hdry, ih2]
    · intro i x hx hne
      cases i with
      | zero =>
        simp at hx
        subst hx
        simp [hrun, stepResult_dry o m idx y hne hdry]
      | succ i =>
        simp at hx
        have := ih3 i x hx hne
        have harith : idx + 1 + i + 2 = idx + (i + 1) + 2 := by omega
        rw [harith] at this
        simp [hrun, this]

/-- Witness for C4 (amended) at a concrete one-row dry run. -/
theorem c4_witness :
    dryOpts.dryRun = true ∧
    (runFrom dryOpts m1 0 [(rowA, netOK)]).length = 1 ∧
    totalCalls (runFrom dryOpts m1 0 [(rowA, netOK)]) = 0 :=
  ⟨rfl, (c4_dry_run dryOpts m1 0 [(rowA, netOK)] rfl).1,
    (c4_dry_run dryOpts m1 0 [(rowA, netOK)] rfl).2.1⟩

/-- Counterexample for C7 as stated: the role mapping is present
(column "role") and the trimmed cell value is empty, yet the normalized
record's role is the empty string, not "employee" (app.py line 168 has no
empty-value default; the spec's role rule gives "employee" here). -/
theorem c7_counterexample :
    m0.roleCol = some "role" ∧
    trimStr (rowGet row0 "role") = "" ∧
    (normalizeRow m0 row0).role = "" ∧
    ¬ (normalizeRow m0 row0).role = "employee" ∧
    specRoleRule m0 row0 = "employee" := by
  refine ⟨rfl, by decide, by decide, by decide, by decide⟩

/-- C7 (amended): the normalized role follows the same read-and-trim rule
as first/last, with the "employee" default applied exactly when the role
mapping is absent, empty, or the "(none)" sentinel; a mapped role column
yields its trimmed cell value even when that value is empty (the
"employee" default for an empty value happens only at the real-call
sites, app.py lines 40 and 182, not in the normalized record). -/
theorem c7_role_amended (m : Mapping) (row : Row) :
    ((m.roleCol = none ∨ m.roleCol = some "" ∨ m.roleCol = some "(none)") →
      (normalizeRow m row).role = "employee") ∧
    (∀ c, m.roleCol = some c → ¬ c = "" → ¬ c = "(none)" →
      (normalizeRow m row).role = trimStr (rowGet row c)) := by
  constructor
  · rintro (h | h | h) <;> simp [normalizeRow, readOpt, h]
  · intro c hc h1 h2
    simp [normalizeRow, readOpt, hc, h1, h2]

/-- Witness for C7 (amended) at the mapped-but-empty role row. -/
theorem c7_witness :
    m0.roleCol = some "role" ∧ ¬ ("role" : String) = "" ∧ ¬ ("role" : String) = "(none)" ∧
    (normalizeRow m0 row0).role = trimStr (rowGet row0 "role") :=
  ⟨rfl, by decide, by decide,
    (c7_role_amended m0 row0).2 "role" rfl (by decide) (by decide)⟩

/-- C9: the payload built for the invitation client never carries an
empty role — a falsy role argument becomes the literal "employee"
(app.py line 40) — while the batch's own normalized record can keep the
empty string (shown at the concrete mapped-but-empty role row). -/
theorem c9_payload_role (email : String) (first last : Option String) (role : String) :
    ¬ (mkPayload email first last role).role = "" ∧
    (mkPayload email first last "").role = "employee" ∧
    (normalizeRow m0 row0).role = "" := by
  refine ⟨?_, by simp [mkPayload], by decide⟩
  by_cases h : role = "" <;> simp [mkPayload, h]

lemma postInviteGo_spec (net : Oracle) :
    ∀ (b retry : Nat), (postInviteGo net retry b).2.1 ≤ b + 1 ∧
      (postInviteGo net retry b).1 = net (retry + (postInviteGo net retry b).2.1 - 1) := by
  intro b
  induction b with
  | zero =>
    intro retry
    cases h : net retry <;> simp [postInviteGo, h]
  | succ b ih =>
    intro retry
    cases h : net retry with
    | error e => simp [postInviteGo, h]
    | ok r =>
      by_cases hc : r.code = 429
      · obtain ⟨ih1, ih2⟩ := ih (retry + 1)
        refine ⟨?_, ?_⟩
        · simp only [postInviteGo, h, hc, if_pos]
          omega
        · simp only [postInviteGo, h, hc, if_pos]
          rw [ih2]
          congr 1
          omega
      · simp [postInviteGo, h, hc]

/-- C10: for every retry bound and every behaviour of the remote endpoint
(any sequence of responses or raised exceptions), `post_invite`
terminates — it is a total function of the oracle — issuing at most
maxRetries + 1 POSTs, and its result is the answer of the last attempt
made, paired with the payload built from its arguments. -/
theorem c10_retry_bound (net : Oracle) (email : String) (first last : Option String)
    (role : String) (maxRetries : Nat) :
    (post_invite net email first last role maxRetries).attempts ≤ maxRetries + 1 ∧
    (post_invite net email first last role maxRetries).result =
      Except.map (fun resp => (resp, mkPayload email first last role))
        (net ((post_invite net email first last role maxRetries).attempts - 1)) := by
  obtain ⟨h1, h2⟩ := postInviteGo_spec net maxRetries 0
  refine ⟨h1, ?_⟩
  show Except.map _ (postInviteGo net 0 maxRetries).1 = _
  rw [h2]
  simp [post_invite]

/-- C8: pacing.  In every run, a skipped or dry-run row performs no
pacing delay, every really-called row (successful or NETWORK_ERROR)
performs a pacing delay of exactly throttleMillis milliseconds before
the next iteration (app.py lines 207-209; `time.sleep` is skipped when
the throttle is 0, a zero-millisecond delay), and a row that takes the
fatal 401 branch is always the last processed row, so no "next
iteration" exists for it. -/
theorem c8_pacing (o : RunOpts) (m : Mapping) (idx : Nat) (l : List (Row × Oracle))
    (i : Nat) (r : RowResult) (hi : (runFrom o m idx l)[i]? = some r) :
    ((r.kind = RKind.skip ∨ r.kind = RKind.dry) → r.pacing = 0) ∧
    ((r.kind = RKind.real ∨ r.kind = RKind.net) → r.pacing = o.throttleMs) ∧
    (r.kind = RKind.auth → (runFrom o m idx l).length = i + 1) := by
  induction l generalizing idx i with
  | nil => simp [runFrom_nil] at hi
  | cons x rest ih =>
    by_cases hb : rowBreaks o m x
    · have hrun : runFrom o m idx (x :: rest) = [stepResult o m idx x] := by
        simp [runFrom_cons, hb]
      rw [hrun] at hi
      cases i with
      | zero =>
        simp at hi
        subst hi
        have hk : (stepResult o m idx x).kind = RKind.auth :=
          (rowBreaks_iff_auth o m idx x).mp hb
        obtain ⟨hp1, hp2⟩ := stepResult_pacing o m idx x
        refine ⟨?_, ?_, ?_⟩
        · intro h
          cases h <;> simp_all
        · intro h
          cases h <;> simp_all
        · intro _
          simp [hrun]
      | succ i => simp at hi
    · have hrun : runFrom o m idx (x :: rest) =
          stepResult o m idx x :: runFrom o m (idx + 1) rest := by
        simp [runFrom_cons, hb]
      rw [hrun] at hi
      cases i with
      | zero =>
        simp at hi
        subst hi
        have hk : ¬ (stepResult o m idx x).kind = RKind.auth := by
          intro h
          exact hb ((rowBreaks_iff_auth o m idx x).mpr h)
        obtain ⟨hp1, hp2⟩ := stepResult_pacing o m idx x
        exact ⟨hp1, hp2, fun h => absurd h hk⟩
      | succ i =>
        simp at hi
        obtain ⟨q1, q2, q3⟩ := ih (idx + 1) i hi
        refine ⟨q1, q2, ?_⟩
        intro h
        simp [hrun, q3 h]

/-- The first row result of the one-row 201 run used as the C8 witness. -/
def resW : RowResult :=
  { out := { row := 2, email := "a@b.c", first? := some "", last? := some ""
           , role? := some "employee", status := "INVITED", snippet? := some "created" }
  , kind := RKind.real, calls := 1, sleeps := [], pacing := 100 }

/-- Witness for C8: in a concrete one-row real run the processed row is a
real row and its pacing delay equals the 100 ms throttle. -/
theorem c8_witness :
    (runFrom realOpts m1 0 [(rowA, netOK)])[0]? = some resW ∧
    resW.pacing = realOpts.throttleMs :=
  ⟨by decide,
    (c8_pacing realOpts m1 0 [(rowA, netOK)] 0 resW (by decide)).2.1 (Or.inl (by decide))⟩

lemma postInviteGo_ok_done (net : Oracle) (retry b : Nat) (r : HResp)
    (h : net retry = Except.ok r) (hc : ¬ r.code = 429) :
    postInviteGo net retry b = (Except.ok r, 1, []) := by
  cases b <;> simp [postInviteGo, h, hc]

/-- C3: with the default max_retries = 5, a response sequence of five
consecutive 429s followed by a 201 makes `post_invite` issue exactly six
POSTs, sleeping min(2^retryCount, 10) seconds before each retry with
retryCount starting at 1 — that is 2, 4, 8, 10, 10 seconds — and return
the 201 response (classified INVITED) with the payload; and any call
whose first response is not a 429 returns that response immediately,
with one POST and no backoff sleep. -/
theorem c3_backoff :
    (∀ (net : Oracle) (r0 r1 r2 r3 r4 r5 : HResp)
        (email : String) (first last : Option String) (role : String),
      net 0 = Except.ok r0 → r0.code = 429 →
      net 1 = Except.ok r1 → r1.code = 429 →
      net 2 = Except.ok r2 → r2.code = 429 →
      net 3 = Except.ok r3 → r3.code = 429 →
      net 4 = Except.ok r4 → r4.code = 429 →
      net 5 = Except.ok r5 → r5.code = 201 →
      (post_invite net email first last role 5).attempts = 6 ∧
      (post_invite net email first last role 5).sleeps = [2, 4, 8, 10, 10] ∧
      (post_invite net email first last role 5).result =
        Except.ok (r5, mkPayload email first last role) ∧
      classify r5.code r5.text = Tag.INVITED) ∧
    (∀ (net : Oracle) (r : HResp) (email : String) (first last : Option String)
        (role : String),
      net 0 = Except.ok r → ¬ r.code = 429 →
      (post_invite net email first last role 5).attempts = 1 ∧
      (post_invite net email first last role 5).sleeps = [] ∧
      (post_invite net email first last role 5).result =
        Except.ok (r, mkPayload email first last role)) := by
  constructor
  · intro net r0 r1 r2 r3 r4 r5 email first last role h0 c0 h1 c1 h2 c2 h3 c3 h4 c4 h5 c5
    have g0 : postInviteGo net 0 5 = (Except.ok r5, 6, [2, 4, 8, 10, 10]) := by
      simp [postInviteGo, h0, c0, h1, c1, h2, c2, h3, c3, h4, c4, h5]
    refine ⟨?_, ?_, ?_, ?_⟩
    · show (postInviteGo net 0 5).2.1 = 6
      rw [g0]
    · show (postInviteGo net 0 5).2.2 = [2, 4, 8, 10, 10]
      rw [g0]
    · show Except.map _ (postInviteGo net 0 5).1 = _
      rw [g0]
      rfl
    · simp [classify, c5]
  · intro net r email first last role h0 hc
    have g0 : postInviteGo net 0 5 = (Except.ok r, 1, []) :=
      postInviteGo_ok_done net 0 5 r h0 hc
    refine ⟨?_, ?_, ?_⟩
    · show (postInviteGo net 0 5).2.1 = 1
      rw [g0]
    · show (postInviteGo net 0 5).2.2 = []
      rw [g0]
    · show Except.map _ (postInviteGo net 0 5).1 = _
      rw [g0]
      rfl

/-- Witness for C3 at the concrete 429,429,429,429,429,201 endpoint and
at a concrete endpoint answering 201 at once. -/
theorem c3_witness :
    (netSeq 0 = Except.ok ⟨429, "slow down"⟩ ∧ netSeq 5 = Except.ok ⟨201, "ok"⟩) ∧
    ((post_invite netSeq "a@b.c" none none "employee" 5).attempts = 6 ∧
      (post_invite netSeq "a@b.c" none none "employee" 5).sleeps = [2, 4, 8, 10, 10]) ∧
    (netOK 0 = Except.ok ⟨201, "created"⟩ ∧
      (post_invite netOK "a@b.c" none none "employee" 5).attempts = 1 ∧
      (post_invite netOK "a@b.c" none none "employee" 5).sleeps = []) :=
  ⟨⟨rfl, rfl⟩,
    ⟨((c3_backoff.1 netSeq ⟨429, "slow down"⟩ ⟨429, "slow down"⟩ ⟨429, "slow down"⟩
        ⟨429, "slow down"⟩ ⟨429, "slow down"⟩ ⟨201, "ok"⟩ "a@b.c" none none "employee"
        rfl rfl rfl rfl rfl rfl rfl rfl rfl rfl rfl rfl).1),
      ((c3_backoff.1 netSeq ⟨429, "slow down"⟩ ⟨429, "slow down"⟩ ⟨429, "slow down"⟩
        ⟨429, "slow down"⟩ ⟨429, "slow down"⟩ ⟨201, "ok"⟩ "a@b.c" none none "employee"
        rfl rfl rfl rfl rfl rfl rfl rfl rfl rfl rfl rfl).2.1)⟩,
    ⟨rfl,
      (c3_backoff.2 netOK ⟨201, "created"⟩ "a@b.c" none none "employee" rfl (by decide)).1,
      (c3_backoff.2 netOK ⟨201, "created"⟩ "a@b.c" none none "employee" rfl (by decide)).2.1⟩⟩
